import Mathlib

/-!
Verification development for the taikoPointsByLevel repository.

The program queries a leaderboard HTTP API: it fetches the total participant
count, derives a target rank for each configured percentile, fans out one
lookup per percentile, and aggregates the truncated total scores into an
ordered result list.

Embedding decisions:
* Go `float64` values are modelled as exact rationals (`ℚ`); the conversion
  `int(f)` is truncation toward zero, modelled by `truncRat`.
* The network is modelled as an oracle `Net` giving, for every endpoint and
  attempt number, either a transport failure or an HTTP reply (status code
  plus body).  A body is either syntactically valid JSON (a `Json` value) or
  malformed text.
* JSON decoding follows Go `encoding/json` semantics for the fixed schema:
  missing or null fields keep their zero value, type mismatches fail,
  unknown fields are ignored, duplicate keys resolve to the last occurrence.
* The fan-out/join concurrency of the resolver is deterministic in every
  observable the claims mention (success value, per-slot contents, whether an
  error is returned); it is embedded as an in-order traversal whose error
  choice is the first failing index.
-/

namespace Taiko

/-- Go `int(f)` for `f : float64`, modelled on ℚ: truncation toward zero. -/
def truncRat (q : ℚ) : ℤ := q.num.tdiv q.den

/-- One participant record (source struct `User`). -/
structure User where
  rank : ℤ
  address : String
  score : ℚ
  multiplier : ℤ
  totalScore : ℚ

/-- The paginated payload (source struct `Data`). -/
structure Data where
  users : List User
  page : ℤ
  size : ℤ
  total : ℤ
  totalPages : ℤ

/-- The full API response (source struct `Response`). -/
structure Response where
  data : Data
  lastUpdated : ℤ

/-- Zero value of `User`, as produced by Go for a freshly allocated struct. -/
def zeroUser : User := ⟨0, "", 0, 0, 0⟩

/-- Zero value of `Data`. -/
def zeroData : Data := ⟨[], 0, 0, 0, 0⟩

/-- Zero value of `Response`. -/
def zeroResponse : Response := ⟨zeroData, 0⟩

/-- Syntactically valid JSON values. -/
inductive Json where
  | null : Json
  | bool (b : Bool) : Json
  | num (q : ℚ) : Json
  | str (s : String) : Json
  | arr (elems : List Json) : Json
  | obj (fields : List (String × Json)) : Json

/-- Field lookup in a JSON object; Go `encoding/json` lets a duplicate key
resolve to its last occurrence, so the tail is searched first. -/
def lookupField (fields : List (String × Json)) (key : String) : Option Json :=
  match fields with
  | [] => none
  | (k, v) :: rest =>
    match lookupField rest key with
    | some w => some w
    | none => if k = key then some v else none

/-- Decode a JSON value into a Go `int` field: must be a number with no
fractional part. -/
def decInt : Json → Option ℤ
  | .num q => if q.den = 1 then some q.num else none
  | _ => none

/-- Decode a JSON value into a Go `float64` field. -/
def decFloat : Json → Option ℚ
  | .num q => some q
  | _ => none

/-- Decode a JSON value into a Go `string` field. -/
def decString : Json → Option String
  | .str s => some s
  | _ => none

/-- Decode one struct field: a missing or null field keeps the zero value
(Go `encoding/json` leaves the destination untouched in both cases). -/
def fieldD {α : Type} (fields : List (String × Json)) (key : String)
    (dec : Json → Option α) (dflt : α) : Option α :=
  match lookupField fields key with
  | none => some dflt
  | some .null => some dflt
  | some v => dec v

/-- Decode a JSON value into a `User` (JSON tags from the source:
rank, address, score, multiplier, totalScore). -/
def decodeUser : Json → Option User
  | .null => some zeroUser
  | .obj fs =>
    match fieldD fs "rank" decInt 0 with
    | none => none
    | some rank =>
      match fieldD fs "address" decString "" with
      | none => none
      | some address =>
        match fieldD fs "score" decFloat 0 with
        | none => none
        | some score =>
          match fieldD fs "multiplier" decInt 0 with
          | none => none
          | some multiplier =>
            match fieldD fs "totalScore" decFloat 0 with
            | none => none
            | some totalScore =>
              some ⟨rank, address, score, multiplier, totalScore⟩
  | _ => none

/-- Decode a list of JSON values into a list of users, failing on the first
element that fails. -/
def decodeUserList : List Json → Option (List User)
  | [] => some []
  | j :: rest =>
    match decodeUser j with
    | none => none
    | some u =>
      match decodeUserList rest with
      | none => none
      | some us => some (u :: us)

/-- Decode a JSON value into the `items` slice: null decodes to the empty
slice, an array decodes elementwise. -/
def decUsers : Json → Option (List User)
  | .null => some []
  | .arr es => decodeUserList es
  | _ => none

/-- Decode a JSON value into `Data` (JSON tags from the source:
items, page, size, total, total_pages). -/
def decodeData : Json → Option Data
  | .null => some zeroData
  | .obj fs =>
    match fieldD fs "items" decUsers [] with
    | none => none
    | some users =>
      match fieldD fs "page" decInt 0 with
      | none => none
      | some page =>
        match fieldD fs "size" decInt 0 with
        | none => none
        | some size =>
          match fieldD fs "total" decInt 0 with
          | none => none
          | some total =>
            match fieldD fs "total_pages" decInt 0 with
            | none => none
            | some totalPages =>
              some ⟨users, page, size, total, totalPages⟩
  | _ => none

/-- Decode a JSON value into `Response` (JSON tags from the source:
data, lastUpdated).  A JSON null leaves the zero value in place with no
error, matching Go. -/
def decodeResponse : Json → Option Response
  | .null => some zeroResponse
  | .obj fs =>
    match fieldD fs "data" decodeData zeroData with
    | none => none
    | some d =>
      match fieldD fs "lastUpdated" decInt 0 with
      | none => none
      | some lu => some ⟨d, lu⟩
  | _ => none

/-- An HTTP response body: either valid JSON or malformed text. -/
inductive Body where
  | json (j : Json) : Body
  | malformed (raw : String) : Body

/-- `json.NewDecoder(resp.Body).Decode(&response)` from the source
(`parseJSONResponse` / `decodeResponse` helper): malformed text fails,
valid JSON is decoded against the `Response` schema. -/
def decodeBody : Body → Option Response
  | .json j => decodeResponse j
  | .malformed _ => none

/-- Outcome of one `client.Do(req)` call: transport-level failure, or an
HTTP reply carrying a status code and body. -/
inductive HttpOutcome where
  | transportError : HttpOutcome
  | reply (status : ℕ) (body : Body) : HttpOutcome

/-- Errors of `fetchResponse`, one constructor per `return` with a non-nil
error in the source (the unreachable request-construction error is omitted:
the program only ever builds constant, syntactically valid URLs). -/
inductive FetchError where
  /-- Go: "failed to send request after retries: %v" — transport failure on
  the last allowed attempt. -/
  | transportExhausted : FetchError
  /-- Go: "unexpected status code: %d ... %s" — non-200 reply; carries the
  status code and the response body. -/
  | badStatus (code : ℕ) (body : Body) : FetchError
  /-- Go: "failed to decode JSON response: %v". -/
  | decodeError : FetchError
  /-- Go: "retries exceeded" — the return after the loop (dead code). -/
  | retriesExceeded : FetchError

/-- Result of a `fetchResponse` call together with its observable trace:
how many attempts were made and which backoff sleeps (in seconds) happened
between them. -/
structure FetchResult where
  outcome : Except FetchError Response
  attemptsMade : ℕ
  sleeps : List ℕ

/-- Per-attempt network behaviour of a single URL: attempt index ↦ outcome. -/
def AttemptNet : Type := ℕ → HttpOutcome

/-- The fixed retry limit from the source constants. -/
def retryLimit : ℕ := 3

/-- Body of the `for attempt := 0; attempt < retryLimit; attempt++` loop in
`fetchResponse`.  `fuel` is `retryLimit - attempt`; exhausted fuel is the
fall-through return "retries exceeded".  A transport failure before the last
attempt sleeps `attempt + 1` seconds and retries; on the last attempt it
returns the transport-exhausted error.  A reply with a non-200 status fails
immediately, as does a 200 reply whose body does not decode. -/
def fetchLoop (net : AttemptNet) : ℕ → ℕ → ℕ → List ℕ → FetchResult
  | 0, _, made, sleeps => ⟨.error .retriesExceeded, made, sleeps⟩
  | fuel + 1, attempt, made, sleeps =>
    match net attempt with
    | .transportError =>
      if attempt < retryLimit - 1 then
        fetchLoop net fuel (attempt + 1) (made + 1) (sleeps ++ [attempt + 1])
      else
        ⟨.error .transportExhausted, made + 1, sleeps⟩
    | .reply status body =>
      if status = 200 then
        match decodeBody body with
        | none => ⟨.error .decodeError, made + 1, sleeps⟩
        | some r => ⟨.ok r, made + 1, sleeps⟩
      else
        ⟨.error (.badStatus status body), made + 1, sleeps⟩

/-- `fetchResponse(url)` from the source: run the retry loop from attempt 0. -/
def fetchResponse (net : AttemptNet) : FetchResult :=
  fetchLoop net retryLimit 0 0 []

/-- The two URLs the client builds: the bare base endpoint, and
`baseURL?page=<rank>&size=1` for a rank lookup. -/
inductive Endpoint where
  | base : Endpoint
  | pageOf (rank : ℤ) : Endpoint

/-- Network behaviour of the whole backend: per endpoint, per attempt. -/
def Net : Type := Endpoint → AttemptNet

/-- Errors of the leaderboard-client layer. -/
inductive ClientError where
  /-- Go: "failed to fetch total points: %v" — the underlying fetch failed. -/
  | fetchFailed (cause : FetchError) : ClientError
  /-- Go: "no users found in response" — the decoded entries list is empty. -/
  | noUsers : ClientError

/-- `getTotalWallets` from the source: fetch the base endpoint and return
`response.Data.Total`; a fetch failure is wrapped and propagated. -/
def getTotalWallets (net : Net) : Except FetchError ℤ :=
  match (fetchResponse (net .base)).outcome with
  | .error e => .error e
  | .ok r => .ok r.data.total

/-- `getUserTotalPoints(rank)` from the source: fetch the page endpoint for
the rank; on success, fail with the no-users error if the entries list is
empty, otherwise return the first entry's total score converted with
`int(...)` (truncation toward zero). -/
def getUserTotalPoints (net : Net) (rank : ℤ) : Except ClientError ℤ :=
  match (fetchResponse (net (.pageOf rank))).outcome with
  | .error e => .error (.fetchFailed e)
  | .ok r =>
    match r.data.users with
    | [] => .error .noUsers
    | u :: _ => .ok (truncRat u.totalScore)

/-- Errors of the resolver layer. -/
inductive ResolveError where
  /-- Go: "failed to get total wallets: %v" — the initial total fetch failed. -/
  | totalsUnavailable (cause : FetchError) : ResolveError
  /-- Go: "failed to get total points for rank %d: %v" — a per-percentile
  lookup failed; carries the offending rank and the underlying cause. -/
  | lookupFailed (rank : ℤ) (cause : ClientError) : ResolveError

/-- `rank := int(float64(totalUsers) * percentage)` from the goroutine body. -/
def rankFor (totalUsers : ℤ) (percentage : ℚ) : ℤ :=
  truncRat ((totalUsers : ℚ) * percentage)

/-- One per-percentile task: derive the rank from the shared total, look up
the score at that rank, and wrap a failure with the offending rank. -/
def lookupAt (net : Net) (totalUsers : ℤ) (percentage : ℚ) :
    Except ResolveError ℤ :=
  match getUserTotalPoints net (rankFor totalUsers percentage) with
  | .error e => .error (.lookupFailed (rankFor totalUsers percentage) e)
  | .ok pts => .ok pts

/-- The fan-out/join over the percentile list.  Each slot of the result is
owned by one task; on failure the whole result is discarded and a single
wrapped error survives (the source captures one failing goroutine's error
via `sync.Once` / a buffered channel; slot contents and success/failure are
deterministic, and this embedding resolves the unspecified choice among
simultaneous failures to the first failing index). -/
def lookupAll (net : Net) (totalUsers : ℤ) :
    List ℚ → Except ResolveError (List ℤ)
  | [] => .ok []
  | p :: ps =>
    match lookupAt net totalUsers p with
    | .error e => .error e
    | .ok x =>
      match lookupAll net totalUsers ps with
      | .error e => .error e
      | .ok xs => .ok (x :: xs)

/-- The resolver over an arbitrary percentile list: fetch the total once
(failing immediately if that fails), then run the per-percentile lookups. -/
def calculatePoints (net : Net) (percentages : List ℚ) :
    Except ResolveError (List ℤ) :=
  match getTotalWallets net with
  | .error e => .error (.totalsUnavailable e)
  | .ok totalUsers => lookupAll net totalUsers percentages

/-- The fixed percentile list from the source (`topPercentages` /
`percentForTop`), as exact rationals. -/
def topPercentages : List ℚ :=
  [mkRat 1 10000, mkRat 1 1000, mkRat 5 1000, mkRat 1 100, mkRat 3 100,
   mkRat 4 100, mkRat 6 100, mkRat 8 100, mkRat 1 10, mkRat 18 100,
   mkRat 26 100]

/-- `calculatePointsForTopUsers` / `SetPointsForLevel` from the source:
the resolver applied to the fixed percentile list. -/
def calculatePointsForTopUsers (net : Net) : Except ResolveError (List ℤ) :=
  calculatePoints net topPercentages

/-! ### Concrete backends used to exhibit the behaviours -/

/-- A JSON body reporting a total of 100 participants and no entries. -/
def baseBody : Body := .json (.obj [("data", .obj [("total", .num 100)])])

/-- The response `baseBody` decodes to. -/
def baseResponse : Response := ⟨⟨[], 0, 0, 100, 0⟩, 0⟩

/-- A JSON body whose single entry has total score 5000.7. -/
def pageBody : Body :=
  .json (.obj [("data",
    .obj [("items", .arr [.obj [("totalScore", .num (mkRat 50007 10))]])])])

/-- The response `pageBody` decodes to. -/
def pageResponse : Response := ⟨⟨[⟨0, "", 0, 0, mkRat 50007 10⟩], 0, 0, 0, 0⟩, 0⟩

/-- The single user carried by `pageResponse`. -/
def user5000 : User := ⟨0, "", 0, 0, mkRat 50007 10⟩

/-- A JSON body whose entries list is empty. -/
def emptyBody : Body := .json (.obj [("data", .obj [("items", .arr [])])])

/-- A healthy backend: the base endpoint reports 100 participants, every
page lookup returns the 5000.7-score entry. -/
def goodNet : Net := fun e _ =>
  match e with
  | .base => .reply 200 baseBody
  | .pageOf _ => .reply 200 pageBody

/-- A backend whose page lookups all come back with an empty entries list. -/
def emptyPagesNet : Net := fun e _ =>
  match e with
  | .base => .reply 200 baseBody
  | .pageOf _ => .reply 200 emptyBody

/-- A single URL that always fails at the transport level. -/
def downNet : AttemptNet := fun _ => .transportError

/-- A single URL that fails twice at the transport level, then succeeds. -/
def flakyNet : AttemptNet := fun n =>
  if n < 2 then .transportError else .reply 200 baseBody

/-- A single URL that always replies 404 with a diagnostic body. -/
def badStatusNet : AttemptNet := fun _ => .reply 404 (.malformed "nope")

/-- A single URL that replies 200 with a body that is not valid JSON. -/
def undecodableNet : AttemptNet := fun _ => .reply 200 (.malformed "nope")

/-- A backend whose every URL always fails at the transport level. -/
def allDownNet : Net := fun _ _ => .transportError

/-! ### Helper lemmas -/

/-- For a nonnegative rational, truncation toward zero agrees with floor. -/
theorem truncRat_eq_floor (q : ℚ) (h : 0 ≤ q) : truncRat q = ⌊q⌋ := by
  rw [truncRat, Rat.floor_def,
    Int.tdiv_eq_ediv (Rat.num_nonneg.mpr h) (by positivity)]

/-- A per-percentile task succeeds exactly when the underlying rank lookup
does, with the same value. -/
theorem lookupAt_ok_iff (net : Net) (t : ℤ) (p : ℚ) (x : ℤ) :
    lookupAt net t p = .ok x ↔
      getUserTotalPoints net (rankFor t p) = .ok x := by
  unfold lookupAt
  cases h : getUserTotalPoints net (rankFor t p) <;> simp

/-- A per-percentile task fails exactly when the underlying rank lookup
does, and the error wraps that rank together with the cause. -/
theorem lookupAt_err_iff (net : Net) (t : ℤ) (p : ℚ) (e : ResolveError) :
    lookupAt net t p = .error e ↔
      ∃ c, e = .lookupFailed (rankFor t p) c ∧
        getUserTotalPoints net (rankFor t p) = .error c := by
  unfold lookupAt
  cases h : getUserTotalPoints net (rankFor t p) <;> simp
  exact eq_comm

/-- Successful fan-out: the result list has one slot per percentile and
slot `i` carries the lookup result for the rank derived from percentile
`i`. -/
theorem lookupAll_ok (net : Net) (t : ℤ) :
    ∀ (ps : List ℚ) (v : List ℤ), lookupAll net t ps = .ok v →
      v.length = ps.length ∧
      ∀ (i : ℕ) (p : ℚ), ps[i]? = some p →
        ∃ w, v[i]? = some w ∧
          getUserTotalPoints net (rankFor t p) = .ok w := by
  intro ps
  induction ps with
  | nil =>
    intro v h
    simp only [lookupAll] at h
    cases h
    simp
  | cons p ps ih =>
    intro v h
    rw [lookupAll] at h
    cases hx : lookupAt net t p with
    | error e => rw [hx] at h; cases h
    | ok x =>
      rw [hx] at h
      cases hrest : lookupAll net t ps with
      | error e => rw [hrest] at h; cases h
      | ok xs =>
        rw [hrest] at h
        cases h
        obtain ⟨hl, hidx⟩ := ih xs hrest
        refine ⟨by simp [hl], ?_⟩
        intro i q hq
        cases i with
        | zero =>
          simp only [List.getElem?_cons_zero, Option.some.injEq] at hq
          subst hq
          exact ⟨x, by simp, (lookupAt_ok_iff net t p x).mp hx⟩
        | succ j =>
          simp only [List.getElem?_cons_succ] at hq ⊢
          exact hidx j q hq

/-- Failing fan-out: if the lookup for some percentile in the list fails,
the whole fan-out returns a single lookup-failed error wrapping a failing
derived rank and its cause. -/
theorem lookupAll_err (net : Net) (t : ℤ) :
    ∀ (ps : List ℚ) (p : ℚ) (e : ClientError), p ∈ ps →
      getUserTotalPoints net (rankFor t p) = .error e →
      ∃ (p2 : ℚ) (e2 : ClientError), p2 ∈ ps ∧
        getUserTotalPoints net (rankFor t p2) = .error e2 ∧
        lookupAll net t ps = .error (.lookupFailed (rankFor t p2) e2) := by
  intro ps
  induction ps with
  | nil => intro p e hmem; cases hmem
  | cons q ps ih =>
    intro p e hmem hfail
    cases hx : lookupAt net t q with
    | error e2 =>
      obtain ⟨c, hc, hget⟩ := (lookupAt_err_iff net t q e2).mp hx
      refine ⟨q, c, by simp, hget, ?_⟩
      rw [lookupAll, hx, hc]
    | ok x =>
      have hqp : p ≠ q := by
        intro hpq
        subst hpq
        rw [(lookupAt_ok_iff net t p x).mp hx] at hfail
        cases hfail
      have hmem2 : p ∈ ps := by
        cases hmem with
        | head => exact absurd rfl hqp
        | tail _ h2 => exact h2
      obtain ⟨p2, e2, hmem3, hget, hall⟩ := ih p e hmem2 hfail
      refine ⟨p2, e2, List.mem_cons_of_mem q hmem3, hget, ?_⟩
      rw [lookupAll, hx, hall]

/-! ### The claims -/

/-- C1: On success of the resolver, the returned result vector has the same
length as the percentile list, and for every index `i` slot `i` holds the
total score obtained for the rank derived from `topPercentages[i]` — the
output order matches the input percentile order. -/
theorem C1_result_vector_order (net : Net) (v : List ℤ)
    (h : calculatePointsForTopUsers net = .ok v) :
    v.length = topPercentages.length ∧
    ∃ total, getTotalWallets net = .ok total ∧
      ∀ (i : ℕ) (p : ℚ), topPercentages[i]? = some p →
        ∃ w, v[i]? = some w ∧
          getUserTotalPoints net (rankFor total p) = .ok w := by
  unfold calculatePointsForTopUsers calculatePoints at h
  cases ht : getTotalWallets net with
  | error e => rw [ht] at h; cases h
  | ok total =>
    rw [ht] at h
    obtain ⟨hl, hidx⟩ := lookupAll_ok net total topPercentages v h
    exact ⟨hl, total, rfl, hidx⟩

/-- C1 witness: a healthy backend resolves to eleven slots of 5000, in
percentile order. -/
theorem C1_result_vector_order_witness :
    (List.replicate 11 (5000 : ℤ)).length = topPercentages.length ∧
    ∃ total, getTotalWallets goodNet = .ok total ∧
      ∀ (i : ℕ) (p : ℚ), topPercentages[i]? = some p →
        ∃ w, (List.replicate 11 (5000 : ℤ))[i]? = some w ∧
          getUserTotalPoints goodNet (rankFor total p) = .ok w :=
  C1_result_vector_order goodNet (List.replicate 11 5000) rfl

/-- C2: For every total participant count `total ≥ 0` and percentile `p` in
the interval from 0 exclusive to 1 inclusive, the derived rank equals the
floor of `total * p`, and the derivation is deterministic: equal inputs
always yield the same rank. -/
theorem C2_rank_derivation_floor (total : ℤ) (p : ℚ) (h0 : 0 ≤ total)
    (hp : 0 < p) (hp1 : p ≤ 1) :
    rankFor total p = ⌊(total : ℚ) * p⌋ ∧
    ∀ (total2 : ℤ) (p2 : ℚ), total2 = total → p2 = p →
      rankFor total2 p2 = rankFor total p := by
  constructor
  · exact truncRat_eq_floor _ (mul_nonneg (by exact_mod_cast h0) hp.le)
  · rintro t2 q2 rfl rfl; rfl

/-- C2 witness: evaluated at total 100 and percentile 26 percent. -/
theorem C2_rank_derivation_floor_witness :
    (0 : ℤ) ≤ 100 ∧ 0 < mkRat 26 100 ∧ mkRat 26 100 ≤ 1 ∧
    rankFor 100 (mkRat 26 100) = ⌊((100 : ℤ) : ℚ) * mkRat 26 100⌋ :=
  ⟨by decide, by decide, by decide,
    (C2_rank_derivation_floor 100 (mkRat 26 100) (by decide) (by decide)
      (by decide)).1⟩

/-- C3: If at least one per-percentile lookup fails, the resolver returns
exactly one error — wrapping a failing derived rank together with the
underlying cause — and returns no result vector at all, even when other
lookups succeeded. -/
theorem C3_all_or_nothing (net : Net) (total : ℤ) (p : ℚ)
    (e : ClientError) (htot : getTotalWallets net = .ok total)
    (hp : p ∈ topPercentages)
    (hfail : getUserTotalPoints net (rankFor total p) = .error e) :
    (∃ rank cause,
        calculatePointsForTopUsers net = .error (.lookupFailed rank cause) ∧
        getUserTotalPoints net rank = .error cause ∧
        ∃ p2 ∈ topPercentages, rank = rankFor total p2) ∧
    ∀ v, calculatePointsForTopUsers net ≠ .ok v := by
  obtain ⟨p2, e2, hmem, hget, hall⟩ :=
    lookupAll_err net total topPercentages p e hp hfail
  have hcalc : calculatePointsForTopUsers net =
      .error (.lookupFailed (rankFor total p2) e2) := by
    unfold calculatePointsForTopUsers calculatePoints
    rw [htot]
    exact hall
  refine ⟨⟨rankFor total p2, e2, hcalc, hget, p2, hmem, rfl⟩, ?_⟩
  intro v hv
  rw [hcalc] at hv
  cases hv

/-- C3 witness: a backend whose page lookups come back empty makes the
resolver fail, and no result vector is returned. -/
theorem C3_all_or_nothing_witness :
    getTotalWallets emptyPagesNet = .ok 100 ∧
    getUserTotalPoints emptyPagesNet (rankFor 100 (mkRat 1 10000)) =
      .error .noUsers ∧
    ∀ v, calculatePointsForTopUsers emptyPagesNet ≠ .ok v :=
  ⟨rfl, rfl,
    (C3_all_or_nothing emptyPagesNet 100 (mkRat 1 10000) .noUsers rfl
      (by decide) rfl).2⟩

/-- C4: The rank lookup fails with the no-users error if and only if the
successfully fetched and decoded response carries an empty entries list;
and in that case the error reported by the resolver references the
offending rank. -/
theorem C4_empty_entries_iff (net : Net) (rank : ℤ) :
    (getUserTotalPoints net rank = .error .noUsers ↔
      ∃ r, (fetchResponse (net (.pageOf rank))).outcome = .ok r ∧
        r.data.users = []) ∧
    (getUserTotalPoints net rank = .error .noUsers →
      ∀ (total : ℤ) (p : ℚ), rankFor total p = rank →
        lookupAt net total p = .error (.lookupFailed rank .noUsers)) := by
  constructor
  · constructor
    · intro h
      unfold getUserTotalPoints at h
      cases hf : (fetchResponse (net (.pageOf rank))).outcome with
      | error e => simp [hf] at h
      | ok r =>
        simp only [hf] at h
        cases hu : r.data.users with
        | nil => exact ⟨r, rfl, hu⟩
        | cons u rest => simp [hu] at h
    · rintro ⟨r, hf, hu⟩
      unfold getUserTotalPoints
      simp only [hf, hu]
  · intro h total p hrank
    unfold lookupAt
    rw [hrank]
    simp only [h]

/-- C5: When the entries list is non-empty, the rank lookup returns the
first entry's total score truncated to an integer, toward zero and not
rounded: 5000.7 yields 5000 and 3000.2 yields 3000. -/
theorem C5_truncation_toward_zero (net : Net) (rank : ℤ) (r : Response)
    (u : User) (rest : List User)
    (hfetch : (fetchResponse (net (.pageOf rank))).outcome = .ok r)
    (husers : r.data.users = u :: rest) :
    getUserTotalPoints net rank = .ok (truncRat u.totalScore) ∧
    truncRat (mkRat 50007 10) = 5000 ∧
    truncRat (mkRat 30002 10) = 3000 := by
  refine ⟨?_, by decide, by decide⟩
  unfold getUserTotalPoints
  simp only [hfetch, husers]

/-- C5 witness: the healthy backend's 5000.7-score entry truncates to 5000. -/
theorem C5_truncation_toward_zero_witness :
    (fetchResponse (goodNet (.pageOf 0))).outcome = .ok pageResponse ∧
    pageResponse.data.users = user5000 :: [] ∧
    getUserTotalPoints goodNet 0 = .ok (truncRat user5000.totalScore) :=
  ⟨rfl, rfl,
    (C5_truncation_toward_zero goodNet 0 pageResponse user5000 [] rfl rfl).1⟩

/-- C6: The fetcher retries only on transport failure: a first attempt
answered with a non-200 status fails immediately — after exactly one
attempt and with no backoff sleep — with the bad-status error carrying the
code and body, and a first attempt answered 200 with an undecodable body
fails immediately the same way with the decode error. -/
theorem C6_no_retry_on_status_or_decode (net : AttemptNet) (status : ℕ)
    (body : Body) (h0 : net 0 = .reply status body) :
    (status ≠ 200 →
      fetchResponse net = ⟨.error (.badStatus status body), 1, []⟩) ∧
    (status = 200 → decodeBody body = none →
      fetchResponse net = ⟨.error .decodeError, 1, []⟩) := by
  constructor
  · intro hs
    simp [fetchResponse, retryLimit, fetchLoop, h0, hs]
  · intro hs hd
    subst hs
    simp [fetchResponse, retryLimit, fetchLoop, h0, hd]

/-- C6 witness: a 404 reply and an undecodable 200 reply each end the fetch
after one attempt. -/
theorem C6_no_retry_on_status_or_decode_witness :
    badStatusNet 0 = .reply 404 (.malformed "nope") ∧
    fetchResponse badStatusNet =
      ⟨.error (.badStatus 404 (.malformed "nope")), 1, []⟩ ∧
    undecodableNet 0 = .reply 200 (.malformed "nope") ∧
    fetchResponse undecodableNet = ⟨.error .decodeError, 1, []⟩ :=
  ⟨rfl,
    (C6_no_retry_on_status_or_decode badStatusNet 404 (.malformed "nope")
      rfl).1 (by decide),
    rfl,
    (C6_no_retry_on_status_or_decode undecodableNet 200 (.malformed "nope")
      rfl).2 rfl rfl⟩

/-- C7: When every attempt ends in a transport error, the fetcher makes
exactly 3 attempts, sleeps 1 second after the first failure and 2 after the
second, and fails with the retries-exhausted error (the source's
transport-failure-after-retries return). -/
theorem C7_retries_exhausted_after_three (net : AttemptNet)
    (h : ∀ i, i < retryLimit → net i = .transportError) :
    fetchResponse net = ⟨.error .transportExhausted, 3, [1, 2]⟩ := by
  have h0 := h 0 (by decide)
  have h1 := h 1 (by decide)
  have h2 := h 2 (by decide)
  simp [fetchResponse, retryLimit, fetchLoop, h0, h1, h2]

/-- C7 witness: a URL that is always down exhausts the three attempts with
backoff sleeps of 1 and 2 seconds. -/
theorem C7_retries_exhausted_after_three_witness :
    fetchResponse downNet = ⟨.error .transportExhausted, 3, [1, 2]⟩ :=
  C7_retries_exhausted_after_three downNet (fun _ _ => rfl)

/-- C8: If the first two attempts fail with transport errors and the third
returns a 200 reply with a decodable body, the fetcher succeeds with that
decoded response: the retry limit of 3 tolerates 2 transient failures. -/
theorem C8_third_attempt_success (net : AttemptNet) (body : Body)
    (r : Response) (h0 : net 0 = .transportError)
    (h1 : net 1 = .transportError) (h2 : net 2 = .reply 200 body)
    (hdec : decodeBody body = some r) :
    fetchResponse net = ⟨.ok r, 3, [1, 2]⟩ := by
  simp [fetchResponse, retryLimit, fetchLoop, h0, h1, h2, hdec]

/-- C8 witness: two transport failures followed by a healthy reply succeed
on the third attempt. -/
theorem C8_third_attempt_success_witness :
    flakyNet 0 = .transportError ∧ flakyNet 1 = .transportError ∧
    flakyNet 2 = .reply 200 baseBody ∧
    decodeBody baseBody = some baseResponse ∧
    fetchResponse flakyNet = ⟨.ok baseResponse, 3, [1, 2]⟩ :=
  ⟨rfl, rfl, rfl, rfl,
    C8_third_attempt_success flakyNet baseBody baseResponse rfl rfl rfl rfl⟩

/-- C9: If the initial total-participants call fails, the resolver fails
immediately with an error wrapping that cause, and dispatches no
per-percentile lookups: its outcome is unchanged under any change to the
backend's behaviour on the page endpoints. -/
theorem C9_totals_failure_short_circuits (net : Net) (e : FetchError)
    (h : getTotalWallets net = .error e) :
    calculatePointsForTopUsers net = .error (.totalsUnavailable e) ∧
    ∀ net2 : Net, net2 .base = net .base →
      calculatePointsForTopUsers net2 = calculatePointsForTopUsers net := by
  have hmain : ∀ net3 : Net, getTotalWallets net3 = .error e →
      calculatePointsForTopUsers net3 = .error (.totalsUnavailable e) := by
    intro net3 h3
    unfold calculatePointsForTopUsers calculatePoints
    rw [h3]
  refine ⟨hmain net h, ?_⟩
  intro net2 hb
  have h2 : getTotalWallets net2 = .error e := by
    unfold getTotalWallets at h ⊢
    rw [hb]
    exact h
  rw [hmain net2 h2, hmain net h]

/-- C9 witness: a fully unreachable backend fails the resolver with the
wrapped transport-exhausted cause. -/
theorem C9_totals_failure_short_circuits_witness :
    getTotalWallets allDownNet = .error .transportExhausted ∧
    calculatePointsForTopUsers allDownNet =
      .error (.totalsUnavailable .transportExhausted) :=
  ⟨rfl,
    (C9_totals_failure_short_circuits allDownNet .transportExhausted rfl).1⟩

/-- C10: A 200 body that is valid JSON but lacks the data object (or the
data.total field) is not a decode error: the missing fields decode to their
zero values, the reported total is 0, and every derived rank is then 0. -/
theorem C10_missing_fields_zero_values (fields : List (String × Json))
    (r : Response) (hnone : lookupField fields "data" = none)
    (hdec : decodeResponse (.obj fields) = some r) :
    r.data = zeroData ∧ r.data.total = 0 ∧
    (∀ (dfields : List (String × Json)) (d : Data),
      lookupField dfields "total" = none →
      decodeData (.obj dfields) = some d → d.total = 0) ∧
    (∀ net : Net, (fetchResponse (net .base)).outcome = .ok r →
      getTotalWallets net = .ok 0) ∧
    ∀ p : ℚ, rankFor 0 p = 0 := by
  have hdata : r.data = zeroData := by
    unfold decodeResponse at hdec
    have hd : fieldD fields "data" decodeData zeroData = some zeroData := by
      unfold fieldD
      rw [hnone]
    simp only [hd] at hdec
    cases hlu : fieldD fields "lastUpdated" decInt 0 with
    | none =>
      simp only [hlu] at hdec
      exact Option.noConfusion hdec
    | some lu =>
      simp only [hlu] at hdec
      cases hdec
      rfl
  refine ⟨hdata, by rw [hdata]; rfl, ?_, ?_, ?_⟩
  · intro dfields d htotal hdec2
    unfold decodeData at hdec2
    have ht : fieldD dfields "total" decInt 0 = some 0 := by
      unfold fieldD
      rw [htotal]
    cases hus : fieldD dfields "items" decUsers [] with
    | none =>
      simp only [hus] at hdec2
      exact Option.noConfusion hdec2
    | some us =>
      simp only [hus] at hdec2
      cases hpg : fieldD dfields "page" decInt 0 with
      | none =>
        simp only [hpg] at hdec2
        exact Option.noConfusion hdec2
      | some pg =>
        simp only [hpg] at hdec2
        cases hsz : fieldD dfields "size" decInt 0 with
        | none =>
          simp only [hsz] at hdec2
          exact Option.noConfusion hdec2
        | some sz =>
          simp only [hsz, ht] at hdec2
          cases htp : fieldD dfields "total_pages" decInt 0 with
          | none =>
            simp only [htp] at hdec2
            exact Option.noConfusion hdec2
          | some tp =>
            simp only [htp] at hdec2
            cases hdec2
            rfl
  · intro net hnet
    unfold getTotalWallets
    simp only [hnet, hdata]
    rfl
  · intro p
    unfold rankFor
    have hz : ((0 : ℤ) : ℚ) * p = 0 := by push_cast; ring
    rw [hz]
    decide

/-- C10 witness: the empty JSON object decodes to the all-zero response, so
the reported total is 0 and every derived rank is 0. -/
theorem C10_missing_fields_zero_values_witness :
    lookupField [] "data" = none ∧
    decodeResponse (.obj []) = some zeroResponse ∧
    zeroResponse.data = zeroData ∧ zeroResponse.data.total = 0 ∧
    (∀ (dfields : List (String × Json)) (d : Data),
      lookupField dfields "total" = none →
      decodeData (.obj dfields) = some d → d.total = 0) ∧
    (∀ net : Net, (fetchResponse (net .base)).outcome = .ok zeroResponse →
      getTotalWallets net = .ok 0) ∧
    ∀ p : ℚ, rankFor 0 p = 0 := by
  refine ⟨rfl, rfl, ?_⟩
  have h := C10_missing_fields_zero_values [] zeroResponse rfl rfl
  exact ⟨h.1, h.2.1, h.2.2.1, h.2.2.2.1, h.2.2.2.2⟩

end Taiko
